import Mathlib

/-!
Verification of the hypergen-dashboard reactive metrics pipeline.

This file gives a shallow embedding of the dashboard's core logic —
the generic sort comparator (`sortCampaigns` in `App.jsx`,
`ReportingApp.jsx` and the variants), the stats aggregation
(`calculateStats` in `App.jsx`), the date filtering and zero-out
aggregation (`filterCampaignsByDate` / `getFilteredStats`), the
period-over-period helpers (`calculateChange`, the previous-window
computation in `fetchCampaigns`), and the fetch-effect state updates —
and proves or refutes the specified properties about them.

Modelling conventions:
* JavaScript numbers are modelled as exact rationals (`ℚ`); `NaN` is a
  separate `JsVal` constructor.  Double-precision rounding error is out
  of scope: rate/percentage claims are settled in exact arithmetic.
* `Array.prototype.sort` is modelled as a stable insertion sort
  (`jsStableSort`): the element being inserted is placed before the
  first already-placed element `y` with `cmp y x ≥ 0`.  For every
  consistent comparator this agrees with any ECMAScript-conforming
  stable sort; for inconsistent comparators (which the dashboard's
  comparator is on `NaN` dates) ECMAScript leaves the order
  implementation-defined and this is one conforming behaviour.  The
  counterexamples below only use two-element lists, where every stable
  sort performs the single comparison the same way.
* `Number.prototype.toFixed(1)` is modelled by `toFixed1`, following
  the ECMAScript algorithm: negative inputs are negated and prefixed
  with "-", and the fractional digit is chosen as the integer `n`
  minimising the distance of `n / 10` to the input, ties going to the
  larger `n` — i.e. round half away from zero.
* `string → number` coercion (`strToNumber`) covers the decimal integer
  literals that actually occur in the data; other strings coerce to
  `NaN`.  Date strings are the `YYYY-MM-DD` forms the app produces via
  `toISOString().split('T')[0]`; `parseIsoDate` maps them to epoch
  milliseconds with the standard civil-calendar formula and rejects
  invalid dates as `NaN`, like `new Date(string)`.
-/

namespace Hypergen

/-- JavaScript field values as they occur in campaign records:
`undefined`, `null`, finite numbers, `NaN`, and strings. -/
inductive JsVal where
  | undef : JsVal
  | null : JsVal
  | num : ℚ → JsVal
  | nan : JsVal
  | str : String → JsVal
deriving DecidableEq

/-- Sort direction, `sortOrder` in the source (`'asc'` / `'desc'`). -/
inductive SortOrder where
  | asc : SortOrder
  | desc : SortOrder
deriving DecidableEq

/-- A campaign record as returned by `/api/campaign-stats`.  Count
fields are numbers or absent (`null`/`undefined`/missing behave
identically in every use: falsy for `|| 0` and nullish for the
comparator).  `created_at` and the other date fields keep the full
`JsVal` range because `new Date(...)` distinguishes `null` (epoch 0)
from `undefined` (`NaN`). -/
structure Campaign where
  id : String
  camp_name : JsVal
  status : JsVal
  lead_count : Option ℚ
  completed_lead_count : Option ℚ
  lead_contacted_count : Option ℚ
  sent_count : Option ℚ
  replied_count : Option ℚ
  positive_reply_count : Option ℚ
  bounced_count : Option ℚ
  unsubscribed_count : Option ℚ
  created_at : JsVal
  updated_at : JsVal
  last_activity_date : JsVal
deriving DecidableEq

/-- View an optional count as the JavaScript value the property access
yields (`null` stands for null/undefined/missing, which all behave the
same everywhere a count is read). -/
def countVal : Option ℚ → JsVal
  | some q => JsVal.num q
  | none => JsVal.null

/-- Dynamic property access `campaign[sortBy]`; unknown properties are
`undefined`. -/
def Campaign.get (c : Campaign) : String → JsVal
  | "_id" => JsVal.str c.id
  | "camp_name" => c.camp_name
  | "status" => c.status
  | "lead_count" => countVal c.lead_count
  | "completed_lead_count" => countVal c.completed_lead_count
  | "lead_contacted_count" => countVal c.lead_contacted_count
  | "sent_count" => countVal c.sent_count
  | "replied_count" => countVal c.replied_count
  | "positive_reply_count" => countVal c.positive_reply_count
  | "bounced_count" => countVal c.bounced_count
  | "unsubscribed_count" => countVal c.unsubscribed_count
  | "created_at" => c.created_at
  | "updated_at" => c.updated_at
  | "last_activity_date" => c.last_activity_date
  | _ => JsVal.undef

/-- Numeric value of a decimal digit character. -/
def digitVal (c : Char) : ℕ := c.toNat - 48

/-- JavaScript `ToNumber` on strings, restricted to the decimal integer
literals occurring in this application's data; the empty string is `0`,
anything else is `NaN` (`none`). -/
def strToNumber (s : String) : Option ℚ :=
  if s = "" then some 0
  else if s.data.all Char.isDigit then
    some ((s.data.foldl (fun acc c => 10 * acc + digitVal c) 0 : ℕ) : ℚ)
  else if s.data.head? = some '-' ∧ s.data.tail ≠ [] ∧ s.data.tail.all Char.isDigit then
    some (-((s.data.tail.foldl (fun acc c => 10 * acc + digitVal c) 0 : ℕ) : ℚ))
  else none

/-- JavaScript `ToNumber`: `null` is `0`, `undefined` is `NaN`, strings
via `strToNumber`; `none` stands for `NaN`. -/
def jsToNumber : JsVal → Option ℚ
  | JsVal.undef => none
  | JsVal.null => some 0
  | JsVal.num q => some q
  | JsVal.nan => none
  | JsVal.str s => strToNumber s

/-- Numeric `>` after `ToNumber`: any `NaN` operand makes it false. -/
def numGT : Option ℚ → Option ℚ → Bool
  | some a, some b => decide (b < a)
  | _, _ => false

/-- JavaScript `a > b` for the values the comparator can reach: two
strings compare lexicographically, every other combination compares
numerically after `ToNumber`. -/
def jsGT (u v : JsVal) : Bool :=
  match u, v with
  | JsVal.str a, JsVal.str b => decide (b < a)
  | u, v => numGT (jsToNumber u) (jsToNumber v)

/-- JavaScript `a < b`; for these side-effect-free operands it is the
mirror image of `>`. -/
def jsLT (u v : JsVal) : Bool := jsGT v u

/-- Leap-year test of the Gregorian calendar. -/
def isLeapYear (y : ℤ) : Bool := (y % 4 == 0 && y % 100 != 0) || y % 400 == 0

/-- Number of days in a month. -/
def daysInMonth (y m : ℤ) : ℤ :=
  if m = 2 then (if isLeapYear y then 29 else 28)
  else if m = 4 ∨ m = 6 ∨ m = 9 ∨ m = 11 then 30
  else 31

/-- Days since 1970-01-01 of a civil date (standard era/year-of-era
formula; used for years ≥ 1, where all divisions are nonnegative). -/
def daysFromCivil (y m d : ℤ) : ℤ :=
  let yy := if m ≤ 2 then y - 1 else y
  let era := yy / 400
  let yoe := yy - era * 400
  let mp := (m + 9) % 12
  let doy := (153 * mp + 2) / 5 + d - 1
  let doe := yoe * 365 + yoe / 4 - yoe / 100 + doy
  era * 146097 + doe - 719468

/-- Parse a `YYYY-MM-DD` date string to epoch milliseconds; invalid
strings give `none` (`NaN`), matching `new Date(string).getTime()` on
the formats this app produces. -/
def parseIsoDate (s : String) : Option ℚ :=
  match s.data with
  | [y1, y2, y3, y4, h1, m1, m2, h2, d1, d2] =>
    if (y1.isDigit && y2.isDigit && y3.isDigit && y4.isDigit
        && (h1 == '-') && m1.isDigit && m2.isDigit
        && (h2 == '-') && d1.isDigit && d2.isDigit) then
      let y : ℤ := (1000 * digitVal y1 + 100 * digitVal y2 + 10 * digitVal y3 + digitVal y4 : ℕ)
      let m : ℤ := (10 * digitVal m1 + digitVal m2 : ℕ)
      let d : ℤ := (10 * digitVal d1 + digitVal d2 : ℕ)
      if 1 ≤ m ∧ m ≤ 12 ∧ 1 ≤ d ∧ d ≤ daysInMonth y m then
        some ((daysFromCivil y m d * 86400000 : ℤ) : ℚ)
      else none
    else none
  | _ => none

/-- Model of `new Date(v).getTime()`: `undefined` and `NaN` give `NaN`,
`null` coerces to epoch `0`, numbers are epoch milliseconds already,
and strings are parsed as ISO dates. -/
def jsDateVal : JsVal → JsVal
  | JsVal.undef => JsVal.nan
  | JsVal.null => JsVal.num 0
  | JsVal.num q => JsVal.num q
  | JsVal.nan => JsVal.nan
  | JsVal.str s =>
    match parseIsoDate s with
    | some t => JsVal.num t
    | none => JsVal.nan

/-- The comparator's `compareA === null || compareA === undefined`
test. -/
def isNullish : JsVal → Bool
  | JsVal.null => true
  | JsVal.undef => true
  | _ => false

/-- The comparator's string branch: lowercase both values when both are
strings, otherwise leave them unchanged (the numeric branch keeps the
values as they are). -/
def lowerIfBothStr : JsVal → JsVal → JsVal × JsVal
  | JsVal.str a, JsVal.str b => (JsVal.str a.toLower, JsVal.str b.toLower)
  | u, v => (u, v)

/-- Value pre-processing of `sortCampaigns`: `created_at` is converted
with `new Date(...).getTime()`, otherwise both-string values are
lowercased (all other combinations are kept as is). -/
def transformPair (sortBy : String) (rawA rawB : JsVal) : JsVal × JsVal :=
  if sortBy = "created_at" then (jsDateVal rawA, jsDateVal rawB)
  else lowerIfBothStr rawA rawB

/-- Sort direction multiplier `(sortOrder === 'asc' ? 1 : -1)`. -/
def dirOf : SortOrder → ℤ
  | SortOrder.asc => 1
  | SortOrder.desc => -1

/-- Tail of the comparator after pre-processing: null/undefined checks
first (returning `1` / `-1` regardless of direction), then the
direction-scaled three-way comparison. -/
def cmpVals (ord : SortOrder) (ca cb : JsVal) : ℤ :=
  if isNullish ca then 1
  else if isNullish cb then -1
  else dirOf ord * (if jsGT ca cb then 1 else if jsLT ca cb then -1 else 0)

/-- The comparator passed to `sort` by `sortCampaigns` (identical in
`App.jsx`, `ReportingApp.jsx` and all variants; `ReportingApp.jsx`
writes the direction as two symmetric branches, which is the same
function). -/
def jsCompare (sortBy : String) (ord : SortOrder) (a b : Campaign) : ℤ :=
  cmpVals ord (transformPair sortBy (a.get sortBy) (b.get sortBy)).1
    (transformPair sortBy (a.get sortBy) (b.get sortBy)).2

/-- Insert `x` in front of the first element `y` of an already placed
run with `cmp y x ≥ 0` — one step of a stable insertion sort. -/
def insertSorted (cmp : Campaign → Campaign → ℤ) (x : Campaign) :
    List Campaign → List Campaign
  | [] => [x]
  | y :: ys =>
    if cmp y x < 0 then y :: insertSorted cmp x ys else x :: y :: ys

/-- Stable insertion sort, the model of `Array.prototype.sort` (see the
file header). -/
def jsStableSort (cmp : Campaign → Campaign → ℤ) : List Campaign → List Campaign
  | [] => []
  | x :: xs => insertSorted cmp x (jsStableSort cmp xs)

/-- `sortCampaigns` from the source: `[...data].sort(comparator)`. -/
def sortCampaigns (sortBy : String) (ord : SortOrder) (data : List Campaign) :
    List Campaign :=
  jsStableSort (jsCompare sortBy ord) data

/-- Integer of `toFixed(1)` for a nonnegative input: the `n` minimising
the distance of `n / 10` to `q`, ties to the larger `n`. -/
def tenths (q : ℚ) : ℤ := ⌊q * 10 + 1 / 2⌋

/-- Digit rendering of `toFixed(1)` for a nonnegative input. -/
def toFixed1Core (q : ℚ) : String :=
  toString ((tenths q).toNat / 10) ++ "." ++ toString ((tenths q).toNat % 10)

/-- `Number.prototype.toFixed(1)` in exact arithmetic: negative inputs
are negated and prefixed with a minus sign (ECMAScript `Number.toFixed`
step 6), so the overall rounding is half away from zero. -/
def toFixed1 (q : ℚ) : String :=
  if q < 0 then "-" ++ toFixed1Core (-q) else toFixed1Core q

/-- The aggregate stats object produced by the stats calculations. -/
structure AggregateStats where
  totalContacted : ℚ
  totalReplies : ℚ
  positiveReplies : ℚ
  leadRate : String
deriving DecidableEq

/-- The all-zero stats object used as initial state and fallback. -/
def zeroStats : AggregateStats :=
  { totalContacted := 0, totalReplies := 0, positiveReplies := 0, leadRate := "0%" }

/-- `campaign.field || 0` on a count field: missing/null/undefined
(and `NaN`, which is not representable for counts) become `0`. -/
def orZero : Option ℚ → ℚ
  | some q => q
  | none => 0

/-- `campaign.lead_contacted_count || 0`. -/
def contactedOf (c : Campaign) : ℚ := orZero c.lead_contacted_count

/-- `campaign.replied_count || 0`. -/
def repliedOf (c : Campaign) : ℚ := orZero c.replied_count

/-- `campaign.positive_reply_count || 0`. -/
def positiveOf (c : Campaign) : ℚ := orZero c.positive_reply_count

/-- The argument passed to `calculateStats`: a campaigns array, or any
non-array JSON value (`Array.isArray` fails on all of the latter). -/
inductive JsData where
  | arr : List Campaign → JsData
  | nullD : JsData
  | undefD : JsData
  | numD : ℚ → JsData
  | strD : String → JsData
  | objD : JsData
deriving DecidableEq

/-- `calculateStats` from `App.jsx`: non-array input short-circuits to
the zero aggregate; otherwise the three counts are summed with
`reduce` and the lead rate is
`totalContacted > 0 ? (positiveReplies / totalContacted * 100).toFixed(1) + "%" : "0%"`. -/
def calculateStats : JsData → AggregateStats
  | JsData.arr campaigns =>
    { totalContacted := (campaigns.map contactedOf).sum
      totalReplies := (campaigns.map repliedOf).sum
      positiveReplies := (campaigns.map positiveOf).sum
      leadRate :=
        if 0 < (campaigns.map contactedOf).sum then
          toFixed1 ((campaigns.map positiveOf).sum / (campaigns.map contactedOf).sum * 100) ++ "%"
        else "0%" }
  | _ => zeroStats

/-- A date window in epoch milliseconds (`dateRange.startDate` /
`dateRange.endDate` after `new Date(...)`). -/
structure DateWindow where
  startDate : ℚ
  endDate : ℚ
deriving DecidableEq

/-- `new Date(campaign.created_at) >= startDate && <= endDate`: date
objects compare by their time value, and an invalid date (`NaN`) makes
both comparisons false. -/
def inRange (createdAt : JsVal) (w : DateWindow) : Bool :=
  match jsDateVal createdAt with
  | JsVal.num t => decide (w.startDate ≤ t ∧ t ≤ w.endDate)
  | _ => false

/-- `filterCampaignsByDate` from the variants: keep campaigns whose
`created_at` falls inside the inclusive window. -/
def filterCampaignsByDate (campaigns : List Campaign) (w : DateWindow) :
    List Campaign :=
  campaigns.filter (fun c => inRange c.created_at w)

/-- `filteredCampaigns` (status filter):
`statusFilter === 'ALL' || campaign.status === statusFilter`. -/
def filteredCampaigns (campaigns : List Campaign) (statusFilter : String) :
    List Campaign :=
  campaigns.filter
    (fun c => statusFilter == "ALL" || c.status == JsVal.str statusFilter)

/-- The zeroed copy `getFilteredStats` substitutes for an out-of-range
campaign. -/
def zeroOutCounts (c : Campaign) : Campaign :=
  { c with lead_contacted_count := some 0, replied_count := some 0,
           positive_reply_count := some 0 }

/-- The `filteredData` array of `getFilteredStats`: in-range campaigns
kept, out-of-range campaigns replaced by zero-count copies. -/
def zeroedByDate (campaigns : List Campaign) (w : DateWindow) : List Campaign :=
  campaigns.map (fun c => if inRange c.created_at w then c else zeroOutCounts c)

/-- `getFilteredStats` from the variant dashboard: zero-out out-of-range
campaigns, then sum with `reduce` and derive the lead rate with the
same guarded formula as `calculateStats`. -/
def getFilteredStats (campaigns : List Campaign) (w : DateWindow) : AggregateStats :=
  { totalContacted := ((zeroedByDate campaigns w).map contactedOf).sum
    totalReplies := ((zeroedByDate campaigns w).map repliedOf).sum
    positiveReplies := ((zeroedByDate campaigns w).map positiveOf).sum
    leadRate :=
      if 0 < ((zeroedByDate campaigns w).map contactedOf).sum then
        toFixed1 (((zeroedByDate campaigns w).map positiveOf).sum
          / ((zeroedByDate campaigns w).map contactedOf).sum * 100) ++ "%"
      else "0%" }

/-- A value that is either a JavaScript number or a string, for
functions that return both (`calculateChange` returns the number `0`
or a `toFixed` string). -/
inductive JsNumOrStr where
  | num : ℚ → JsNumOrStr
  | str : String → JsNumOrStr
deriving DecidableEq

/-- `calculateChange` from the routed dashboard:
`if (!previous) return 0; return ((current - previous) / previous * 100).toFixed(1);`
(`!previous` on a real number is exactly `previous == 0`). -/
def calculateChange (current previous : ℚ) : JsNumOrStr :=
  if previous = 0 then JsNumOrStr.num 0
  else JsNumOrStr.str (toFixed1 ((current - previous) / previous * 100))

/-- Previous-period window computed by `fetchCampaigns`:
`periodLength = currentEnd - currentStart`,
`previousStart = currentStart - periodLength`,
`previousEnd = currentStart`. -/
def previousWindow (current : DateWindow) : DateWindow :=
  { startDate := current.startDate - (current.endDate - current.startDate)
    endDate := current.startDate }

/-- Inclusive membership of an instant in a window (the semantics used
by `filterCampaignsByDate` and by the `[start, end]` date queries). -/
def windowMember (w : DateWindow) (t : ℚ) : Prop :=
  w.startDate ≤ t ∧ t ≤ w.endDate

/-- The dashboard state touched by the fetch effect of `App.jsx` and
the variant with stats (`campaigns`, `stats`, `error`, `loading`). -/
structure DashboardState where
  campaigns : List Campaign
  stats : AggregateStats
  error : Option String
  loading : Bool
deriving DecidableEq

/-- Events of a fetch lifecycle.  `requestId` identifies which issued
request an outcome belongs to; the issue order is the order of the
`start` events and responses may arrive in any order. -/
inductive FetchEvent where
  | start : ℕ → FetchEvent
  | success : ℕ → List Campaign → FetchEvent
  | failure : ℕ → String → FetchEvent
deriving DecidableEq

/-- State update of one fetch event, transcribing `fetchData`:
`start` runs `setLoading(true); setError(null)`; a resolved response
runs `setCampaigns(data); setStats(getFilteredStats(data, ...))`
unconditionally — there is no request tag or staleness check in the
source — and a rejected response runs
`setError(msg); setCampaigns([]); setStats(zero)`; both end with
`setLoading(false)`. -/
def applyFetchEvent (w : DateWindow) (s : DashboardState) : FetchEvent → DashboardState
  | FetchEvent.start _ => { s with loading := true, error := none }
  | FetchEvent.success _ data =>
    { s with campaigns := data, stats := getFilteredStats data w, loading := false }
  | FetchEvent.failure _ msg =>
    { campaigns := [], stats := zeroStats, error := some msg, loading := false }

/-- Run a sequence of fetch events in arrival order. -/
def runFetchEvents (w : DateWindow) (s : DashboardState) (events : List FetchEvent) :
    DashboardState :=
  events.foldl (applyFetchEvent w) s

/-- State touched by `fetchCampaigns` in the routed dashboard
(`campaigns`, `previousCampaigns`, `error`, `loading`). -/
structure DashboardStateV2 where
  campaigns : List Campaign
  previousCampaigns : List Campaign
  error : Option String
  loading : Bool
deriving DecidableEq

/-- Outcome of the paired current/previous fetch in the routed
dashboard. -/
inductive FetchOutcome where
  | success : List Campaign → List Campaign → FetchOutcome
  | failure : String → FetchOutcome
deriving DecidableEq

/-- State update of `fetchCampaigns` in the routed dashboard: success
stores both period results; failure only records the error message —
the previously displayed campaigns are left untouched. -/
def applyFetchOutcome (s : DashboardStateV2) : FetchOutcome → DashboardStateV2
  | FetchOutcome.success cur prev =>
    { s with campaigns := cur, previousCampaigns := prev, loading := false }
  | FetchOutcome.failure msg => { s with error := some msg, loading := false }

/-- A campaign with every field absent, used as base for concrete test
records. -/
def defaultCampaign : Campaign :=
  { id := "", camp_name := JsVal.undef, status := JsVal.undef,
    lead_count := none, completed_lead_count := none,
    lead_contacted_count := none, sent_count := none, replied_count := none,
    positive_reply_count := none, bounced_count := none,
    unsubscribed_count := none, created_at := JsVal.undef,
    updated_at := JsVal.undef, last_activity_date := JsVal.undef }

/-- Concrete record used in race/error scenarios. -/
def campA : Campaign :=
  { defaultCampaign with
      id := "a", camp_name := JsVal.str "A", lead_contacted_count := some 10 }

/-- Record with `created_at` 2024-01-01. -/
def janCampaign : Campaign :=
  { defaultCampaign with id := "jan", created_at := JsVal.str "2024-01-01" }

/-- Record with `created_at` 2024-03-01. -/
def marCampaign : Campaign :=
  { defaultCampaign with id := "mar", created_at := JsVal.str "2024-03-01" }

/-- Record with `created_at` undefined. -/
def undefCampaign : Campaign :=
  { defaultCampaign with id := "undef", created_at := JsVal.undef }

/-- Scenario record with contacted 100, positive replies 25. -/
def scenarioHigh : Campaign :=
  { defaultCampaign with
      id := "s1", lead_contacted_count := some 100, replied_count := some 0,
      positive_reply_count := some 25 }

/-- Scenario record with contacted 0, positive replies 0. -/
def scenarioZero : Campaign :=
  { defaultCampaign with
      id := "s2", lead_contacted_count := some 0, replied_count := some 0,
      positive_reply_count := some 0 }

/-- Record with a negative contacted count (the source never clamps
counts). -/
def negCampaign : Campaign :=
  { defaultCampaign with
      id := "neg", lead_contacted_count := some (-3),
      positive_reply_count := some 6 }

/-- A one-day current window starting at epoch day 1, for the window
overlap counterexample. -/
def dayWindow : DateWindow := { startDate := 86400000, endDate := 172800000 }

/-- A campaign created exactly at `dayWindow.startDate`. -/
def boundaryCampaign : Campaign :=
  { defaultCampaign with id := "b", created_at := JsVal.num 86400000 }

/-- The initial dashboard state of `App.jsx` (`useState` defaults). -/
def initDashState : DashboardState :=
  { campaigns := [], stats := zeroStats, error := none, loading := true }

/-- A dashboard state holding a previously fetched result, for the
refresh-failure counterexample. -/
def priorState : DashboardState :=
  { campaigns := [campA],
    stats := { totalContacted := 10, totalReplies := 0, positiveReplies := 0,
               leadRate := "0.0%" },
    error := none, loading := false }

/-- Helper: `filter` with an always-true status check keeps every
record. -/
theorem filteredCampaigns_all (campaigns : List Campaign) :
    filteredCampaigns campaigns "ALL" = campaigns := by
  simp [filteredCampaigns]

/-- C1 (amended): responses are applied unconditionally on arrival, so
after any event sequence ending in a resolved response the visible
campaigns and aggregate stats are that response's result — the last
response to ARRIVE wins, regardless of which request was issued most
recently. -/
theorem lastArrivalWins (w : DateWindow) (s : DashboardState)
    (events : List FetchEvent) (i : ℕ) (d : List Campaign) :
    (runFetchEvents w s (events ++ [FetchEvent.success i d])).campaigns = d ∧
    (runFetchEvents w s (events ++ [FetchEvent.success i d])).stats =
      getFilteredStats d w := by
  constructor <;> simp [runFetchEvents, List.foldl_append, applyFetchEvent]

/-- C1 counterexample: request 1 (query A) is issued, then request 2
(query B); B's response arrives first and A's stale response arrives
last.  The final visible campaigns equal A's data, not B's — the claim
that the final state equals B's result, never A's, is false on the
code, which has no staleness check. -/
theorem staleResponseOverwrites :
    (runFetchEvents dayWindow initDashState
      [FetchEvent.start 1, FetchEvent.start 2,
       FetchEvent.success 2 [], FetchEvent.success 1 [campA]]).campaigns
      = [campA] ∧ ([campA] : List Campaign) ≠ [] := by
  constructor
  · rfl
  · simp

/-- C2 (amended): in `App.jsx` / the stats variant, ANY fetch failure —
first load or refresh alike — clears the campaigns to `[]`, resets the
stats to the zero aggregate and records the error; only the routed
dashboard's `fetchCampaigns` preserves the previously displayed data
and merely records the error. -/
theorem failureClearsState :
    (∀ (w : DateWindow) (s : DashboardState) (i : ℕ) (msg : String),
      applyFetchEvent w s (FetchEvent.failure i msg) =
        { campaigns := [], stats := zeroStats, error := some msg, loading := false }) ∧
    (∀ (s2 : DashboardStateV2) (msg : String),
      applyFetchOutcome s2 (FetchOutcome.failure msg) =
        { s2 with error := some msg, loading := false }) :=
  ⟨fun _ _ _ _ => rfl, fun _ _ => rfl⟩

/-- C2 counterexample: a state holding a previously fetched, non-empty
result; a refresh failure leaves empty campaigns and zero stats, so the
previously displayed campaigns and aggregate stats are NOT preserved. -/
theorem refreshFailureNotPreserved :
    priorState.campaigns ≠ [] ∧
    (applyFetchEvent dayWindow priorState (FetchEvent.failure 7 "boom")).campaigns = [] ∧
    (applyFetchEvent dayWindow priorState (FetchEvent.failure 7 "boom")).campaigns
      ≠ priorState.campaigns ∧
    (applyFetchEvent dayWindow priorState (FetchEvent.failure 7 "boom")).stats
      ≠ priorState.stats := by
  refine ⟨by simp [priorState], rfl, by simp [applyFetchEvent, priorState], ?_⟩
  simp [applyFetchEvent, priorState, zeroStats]

/-- C5: the period-over-period delta is the number `0` whenever the
previous total is `0` (never infinite), and otherwise is
`(current - previous) / previous * 100` rounded to one decimal; in
particular current 50 against previous 0 gives 0. -/
theorem calculateChangeSpec :
    (∀ current previous : ℚ, previous = 0 →
      calculateChange current previous = JsNumOrStr.num 0) ∧
    (∀ current previous : ℚ, previous ≠ 0 →
      calculateChange current previous =
        JsNumOrStr.str (toFixed1 ((current - previous) / previous * 100))) ∧
    calculateChange 50 0 = JsNumOrStr.num 0 := by
  refine ⟨fun c p hp => by simp [calculateChange, hp],
    fun c p hp => by simp [calculateChange, hp], rfl⟩

/-- Witness for C5 at concrete inputs. -/
theorem calculateChangeSpec_witness :
    calculateChange 50 0 = JsNumOrStr.num 0 ∧ ((120 : ℚ) ≠ 0) ∧
    calculateChange 150 120 =
      JsNumOrStr.str (toFixed1 ((150 - 120) / 120 * 100)) :=
  ⟨calculateChangeSpec.1 50 0 rfl, by norm_num,
    calculateChangeSpec.2.1 150 120 (by norm_num)⟩

/-- C6 (amended): the previous window is
`[start - (end - start), start]` — its end COINCIDES with the current
window's start, so under the inclusive window semantics the two windows
overlap, exactly at `currentWindow.start`. -/
theorem previousWindowSpec (w : DateWindow) (h : w.startDate ≤ w.endDate) :
    (previousWindow w).startDate = w.startDate - (w.endDate - w.startDate) ∧
    (previousWindow w).endDate = w.startDate ∧
    windowMember (previousWindow w) w.startDate ∧
    windowMember w w.startDate ∧
    (∀ t, windowMember (previousWindow w) t → windowMember w t →
      t = w.startDate) := by
  refine ⟨rfl, rfl, ⟨by simp [previousWindow]; linarith, by simp [previousWindow]⟩,
    ⟨le_refl _, h⟩, ?_⟩
  intro t ht hw
  have h2 : t ≤ w.startDate := by
    simpa [windowMember, previousWindow] using ht.2
  exact le_antisymm h2 hw.1

/-- Witness for C6 at the concrete one-day window. -/
theorem previousWindowSpec_witness :
    dayWindow.startDate ≤ dayWindow.endDate ∧
    windowMember (previousWindow dayWindow) dayWindow.startDate :=
  ⟨by norm_num [dayWindow],
    (previousWindowSpec dayWindow (by norm_num [dayWindow])).2.2.1⟩

/-- C6 counterexample: a campaign created exactly at the current
window's start is kept by the date filter of BOTH the previous and the
current window — the previous window does not exclude
`currentWindow.start` and the two windows overlap. -/
theorem windowsOverlapAtBoundary :
    filterCampaignsByDate [boundaryCampaign] (previousWindow dayWindow)
      = [boundaryCampaign] ∧
    filterCampaignsByDate [boundaryCampaign] dayWindow = [boundaryCampaign] := by
  constructor <;>
    · simp only [filterCampaignsByDate, previousWindow, dayWindow,
        boundaryCampaign, defaultCampaign, inRange, jsDateVal,
        List.filter_cons, List.filter_nil]
      norm_num

/-- C8: both filters return order-preserving subsequences of their
input, and the `ALL` status filter passes every record. -/
theorem filterSublist :
    ∀ (campaigns : List Campaign) (statusValue : String) (w : DateWindow),
      (filteredCampaigns campaigns statusValue).Sublist campaigns ∧
      (filterCampaignsByDate campaigns w).Sublist campaigns ∧
      filteredCampaigns campaigns "ALL" = campaigns := by
  intro c sv w
  exact ⟨List.filter_sublist _, List.filter_sublist _, filteredCampaigns_all c⟩

/-- C9: `calculateStats` maps every non-array input — null, undefined,
number, string, object — to the zero aggregate (and, having no partial
operations, never throws). -/
theorem calculateStatsNonArray :
    calculateStats JsData.nullD = zeroStats ∧
    calculateStats JsData.undefD = zeroStats ∧
    (∀ q : ℚ, calculateStats (JsData.numD q) = zeroStats) ∧
    (∀ s : String, calculateStats (JsData.strD s) = zeroStats) ∧
    calculateStats JsData.objD = zeroStats :=
  ⟨rfl, rfl, fun _ => rfl, fun _ => rfl, rfl⟩

/-- Helper: evaluate `toFixed1` on a nonnegative argument once its
rounded tenths value is known. -/
theorem toFixed1_of_tenths (q : ℚ) (n : ℕ) (hq : ¬ q < 0) (h : tenths q = (n : ℤ)) :
    toFixed1 q = toString (n / 10) ++ "." ++ toString (n % 10) := by
  simp [toFixed1, hq, toFixed1Core, h]

/-- Helper: summing a projection over the zeroed-copy array equals
summing it over the date-filtered array, for any projection that is `0`
on a zeroed copy. -/
theorem sum_zeroed_eq_filter (g : Campaign → ℚ)
    (hg : ∀ c, g (zeroOutCounts c) = 0) (w : DateWindow) :
    ∀ l : List Campaign,
      ((zeroedByDate l w).map g).sum = ((filterCampaignsByDate l w).map g).sum
  | [] => rfl
  | c :: cs => by
    have ih := sum_zeroed_eq_filter g hg w cs
    simp only [zeroedByDate, filterCampaignsByDate] at ih ⊢
    by_cases h : inRange c.created_at w
    · simp only [List.map_cons, List.sum_cons, List.filter_cons, h, if_true, ite_true]
      rw [ih]
    · simp only [List.map_cons, List.sum_cons, List.filter_cons, h, if_false,
        ite_false, Bool.false_eq_true, hg]
      rw [ih, zero_add]

/-- C10: the zero-out-then-sum aggregation of `getFilteredStats`
produces exactly the same totals and lead rate as filtering by date
first and then aggregating with `calculateStats`. -/
theorem getFilteredStatsEquiv (campaigns : List Campaign) (w : DateWindow) :
    getFilteredStats campaigns w =
      calculateStats (JsData.arr (filterCampaignsByDate campaigns w)) := by
  have h1 := sum_zeroed_eq_filter contactedOf (fun _ => rfl) w campaigns
  have h2 := sum_zeroed_eq_filter repliedOf (fun _ => rfl) w campaigns
  have h3 := sum_zeroed_eq_filter positiveOf (fun _ => rfl) w campaigns
  simp [getFilteredStats, calculateStats, h1, h2, h3]

/-- C4 (amended): the lead rate is "0%" when the contacted total is
nonpositive — the source guard is `totalContacted > 0`, not
`totalContacted == 0` — and only a positive total yields the rounded
ratio; the scenario aggregates to contacted 100, positive replies 25,
lead rate "25.0%". -/
theorem leadRateGuard :
    (∀ l : List Campaign,
      ((calculateStats (JsData.arr l)).totalContacted ≤ 0 →
        (calculateStats (JsData.arr l)).leadRate = "0%") ∧
      (0 < (calculateStats (JsData.arr l)).totalContacted →
        (calculateStats (JsData.arr l)).leadRate =
          toFixed1 ((calculateStats (JsData.arr l)).positiveReplies /
            (calculateStats (JsData.arr l)).totalContacted * 100) ++ "%")) ∧
    calculateStats (JsData.arr [scenarioHigh, scenarioZero]) =
      { totalContacted := 100, totalReplies := 0, positiveReplies := 25,
        leadRate := "25.0%" } := by
  constructor
  · intro l
    constructor
    · intro h
      have h2 : ¬ 0 < (l.map contactedOf).sum := by
        simpa [calculateStats] using not_lt.mpr h
      simp [calculateStats, h2]
    · intro h
      have h2 : 0 < (l.map contactedOf).sum := by
        simpa [calculateStats] using h
      simp [calculateStats, h2]
  · have h25 : toFixed1 25 ++ "%" = "25.0%" := by
      rw [toFixed1_of_tenths 25 250 (by norm_num) (by norm_num [tenths])]
      rfl
    norm_num [calculateStats, contactedOf, repliedOf, positiveOf, orZero,
      scenarioHigh, scenarioZero, defaultCampaign, h25]

/-- Witness for C4: both guard branches discharged at concrete
collections. -/
theorem leadRateGuard_witness :
    (calculateStats (JsData.arr ([] : List Campaign))).totalContacted ≤ 0 ∧
    (calculateStats (JsData.arr ([] : List Campaign))).leadRate = "0%" ∧
    0 < (calculateStats (JsData.arr [scenarioHigh])).totalContacted ∧
    (calculateStats (JsData.arr [scenarioHigh])).leadRate =
      toFixed1 ((calculateStats (JsData.arr [scenarioHigh])).positiveReplies /
        (calculateStats (JsData.arr [scenarioHigh])).totalContacted * 100) ++ "%" :=
  ⟨by norm_num [calculateStats],
    (leadRateGuard.1 []).1 (by norm_num [calculateStats]),
    by norm_num [calculateStats, contactedOf, orZero, scenarioHigh, defaultCampaign],
    (leadRateGuard.1 [scenarioHigh]).2
      (by norm_num [calculateStats, contactedOf, orZero, scenarioHigh, defaultCampaign])⟩

/-- C4 counterexample: a (never sanitised) negative contacted count
gives a nonzero total for which the code still returns "0%", not the
rounded ratio the claim demands for every nonzero total. -/
theorem negativeContactedLeadRate :
    (calculateStats (JsData.arr [negCampaign])).totalContacted ≠ 0 ∧
    (calculateStats (JsData.arr [negCampaign])).leadRate = "0%" ∧
    (calculateStats (JsData.arr [negCampaign])).leadRate ≠
      toFixed1 ((calculateStats (JsData.arr [negCampaign])).positiveReplies /
        (calculateStats (JsData.arr [negCampaign])).totalContacted * 100) ++ "%" := by
  have hc : contactedOf negCampaign = -3 := by
    norm_num [contactedOf, orZero, negCampaign, defaultCampaign]
  have hp : positiveOf negCampaign = 6 := by
    norm_num [positiveOf, orZero, negCampaign, defaultCampaign]
  have hrate : toFixed1 ((6 : ℚ) / (-3) * 100) = "-200.0" := by
    rw [show ((6 : ℚ) / (-3) * 100) = -200 by norm_num]
    rw [show toFixed1 (-200 : ℚ) = "-" ++ toFixed1Core 200 by norm_num [toFixed1]]
    simp only [toFixed1Core]
    rw [show tenths (200 : ℚ) = ((2000 : ℕ) : ℤ) by norm_num [tenths]]
    rfl
  refine ⟨?_, ?_, ?_⟩
  · simp only [calculateStats, List.map_cons, List.map_nil, List.sum_cons,
      List.sum_nil, hc]
    norm_num
  · simp only [calculateStats, List.map_cons, List.map_nil, List.sum_cons,
      List.sum_nil, hc]
    norm_num
  · simp only [calculateStats, List.map_cons, List.map_nil, List.sum_cons,
      List.sum_nil, hc, hp]
    rw [show (-3 : ℚ) + 0 = -3 by norm_num, show (6 : ℚ) + 0 = 6 by norm_num,
      if_neg (by norm_num : ¬ (0 : ℚ) < -3), hrate]
    decide

/-- Helper: `numGT` is irreflexive. -/
theorem numGT_self (o : Option ℚ) : numGT o o = false := by
  cases o <;> simp [numGT]

/-- Helper: `numGT` is asymmetric. -/
theorem numGT_asymm (o p : Option ℚ) (h : numGT o p = true) : numGT p o = false := by
  cases o <;> cases p <;> simp [numGT] at h ⊢
  exact le_of_lt h

/-- Helper: JavaScript `>` is irreflexive. -/
theorem jsGT_self (w : JsVal) : jsGT w w = false := by
  cases w <;> simp [jsGT, numGT_self]

/-- Helper: JavaScript `>` is asymmetric. -/
theorem jsGT_asymm (u v : JsVal) (h : jsGT u v = true) : jsGT v u = false := by
  cases u <;> cases v <;> simp [jsGT] at h ⊢ <;>
    first
      | exact le_of_lt h
      | exact numGT_asymm _ _ h

/-- Helper: the lowercase branch leaves a nullish left value pair
unchanged. -/
theorem lowerIfBothStr_left_nullish (u v : JsVal) (hu : isNullish u = true) :
    lowerIfBothStr u v = (u, v) := by
  cases u <;> simp [isNullish] at hu <;> cases v <;> rfl

/-- Helper: the lowercase branch leaves a nullish right value pair
unchanged. -/
theorem lowerIfBothStr_right_nullish (u v : JsVal) (hv : isNullish v = true) :
    lowerIfBothStr u v = (u, v) := by
  cases v <;> simp [isNullish] at hv <;> cases u <;> rfl

/-- Helper: the comparator pre-processing applied to two copies of the
same value yields two equal components. -/
theorem transformPair_same (f : String) (v : JsVal) :
    (transformPair f v v).1 = (transformPair f v v).2 := by
  unfold transformPair
  by_cases hf : f = "created_at"
  · simp [hf]
  · rw [if_neg hf]
    cases v <;> simp [lowerIfBothStr]

/-- Helper: the comparator pre-processing commutes with swapping its
two values. -/
theorem transformPair_swap (f : String) (u v : JsVal) :
    transformPair f v u = ((transformPair f u v).2, (transformPair f u v).1) := by
  unfold transformPair
  by_cases hf : f = "created_at"
  · simp [hf]
  · rw [if_neg hf, if_neg hf]
    cases u <;> cases v <;> simp [lowerIfBothStr]

/-- Helper: the comparator tail never ranks a value strictly before a
copy of itself. -/
theorem cmpVals_self (ord : SortOrder) (w : JsVal) : 0 ≤ cmpVals ord w w := by
  unfold cmpVals
  by_cases h : isNullish w = true
  · simp [h]
  · simp [h, jsGT_self, jsLT]

/-- Helper: if the comparator tail ranks `ca` strictly before `cb`,
the swapped comparison does not rank `cb` strictly before `ca`. -/
theorem cmpVals_anti (ord : SortOrder) (ca cb : JsVal)
    (h : cmpVals ord ca cb < 0) : 0 ≤ cmpVals ord cb ca := by
  unfold cmpVals at h ⊢
  by_cases hca : isNullish ca = true
  · rw [if_pos hca] at h
    omega
  · by_cases hcb : isNullish cb = true
    · rw [if_pos hcb]
      omega
    · rw [if_neg hca, if_neg hcb] at h
      rw [if_neg hcb, if_neg hca]
      by_cases hgt : jsGT ca cb = true
      · have hgt2 : jsGT cb ca = false := jsGT_asymm ca cb hgt
        simp only [jsLT, hgt, hgt2, if_true, ite_true, if_false, ite_false,
          Bool.false_eq_true] at h ⊢
        cases ord <;> simp [dirOf] at h ⊢
      · by_cases hgt2 : jsGT cb ca = true
        · simp only [jsLT, hgt, hgt2, if_true, ite_true, if_false, ite_false,
            Bool.false_eq_true] at h ⊢
          cases ord <;> simp [dirOf] at h ⊢
        · simp only [jsLT, hgt, hgt2, if_false, ite_false, Bool.false_eq_true] at h
          omega

/-- Helper: records with equal raw sort-key values are never ranked
strictly against each other by the comparator (the result is `0`, or
`1` in the shared-nullish branch). -/
theorem jsCompare_key_eq (f : String) (ord : SortOrder) (a b : Campaign)
    (h : a.get f = b.get f) : 0 ≤ jsCompare f ord a b := by
  unfold jsCompare
  rw [h, transformPair_same f (b.get f)]
  exact cmpVals_self ord _

/-- Helper: the comparator is never strict in both directions. -/
theorem jsCompare_anti (f : String) (ord : SortOrder) (a b : Campaign)
    (h : jsCompare f ord a b < 0) : 0 ≤ jsCompare f ord b a := by
  unfold jsCompare at h ⊢
  rw [transformPair_swap f (a.get f) (b.get f)]
  exact cmpVals_anti ord _ _ h

/-- Helper: outside the `created_at` branch, a nullish first key makes
the comparator return `1` whatever the second record is. -/
theorem jsCompare_null_first (f : String) (ord : SortOrder)
    (hf : f ≠ "created_at") (y x : Campaign)
    (hy : isNullish (y.get f) = true) : jsCompare f ord y x = 1 := by
  simp [jsCompare, transformPair, hf, lowerIfBothStr_left_nullish _ _ hy,
    cmpVals, hy]

/-- Helper: outside the `created_at` branch, a non-nullish first key
against a nullish second key makes the comparator return `-1`. -/
theorem jsCompare_null_second (f : String) (ord : SortOrder)
    (hf : f ≠ "created_at") (y x : Campaign)
    (hy : isNullish (y.get f) = false) (hx : isNullish (x.get f) = true) :
    jsCompare f ord y x = -1 := by
  simp [jsCompare, transformPair, hf, lowerIfBothStr_right_nullish _ _ hx,
    cmpVals, hy, hx]

/-- Helper: one insertion step preserves the nulls-form-a-suffix
invariant, for any comparator that sends nullish-keyed records to `1`
against everything and non-nullish against nullish to `-1`. -/
theorem insertSorted_pairwise_null (cmp : Campaign → Campaign → ℤ)
    (nk : Campaign → Bool)
    (h1 : ∀ y x, nk y = true → cmp y x = 1)
    (h2 : ∀ y x, nk y = false → nk x = true → cmp y x = -1) (x : Campaign) :
    ∀ s : List Campaign,
      s.Pairwise (fun a b => nk a = true → nk b = true) →
      (insertSorted cmp x s).Pairwise (fun a b => nk a = true → nk b = true)
  | [], _ => by simp [insertSorted]
  | y :: ys, hs => by
    rw [insertSorted]
    rcases List.pairwise_cons.mp hs with ⟨hy, hys⟩
    by_cases h : cmp y x < 0
    · rw [if_pos h]
      refine List.pairwise_cons.mpr
        ⟨?_, insertSorted_pairwise_null cmp nk h1 h2 x ys hys⟩
      intro b _ hny
      rw [h1 y x hny] at h
      exact absurd h (by decide)
    · rw [if_neg h]
      refine List.pairwise_cons.mpr ⟨?_, hs⟩
      intro b hb hnx
      by_cases hny : nk y = true
      · rcases List.mem_cons.mp hb with rfl | hb
        · exact hny
        · exact hy b hb hny
      · have hny2 : nk y = false := by simpa using hny
        rw [h2 y x hny2 hnx] at h
        exact absurd (by decide : (-1 : ℤ) < 0) h

/-- Helper: the stable sort keeps nullish-keyed records in a suffix,
after every record whose key is defined. -/
theorem jsStableSort_pairwise_null (cmp : Campaign → Campaign → ℤ)
    (nk : Campaign → Bool)
    (h1 : ∀ y x, nk y = true → cmp y x = 1)
    (h2 : ∀ y x, nk y = false → nk x = true → cmp y x = -1) :
    ∀ l : List Campaign,
      (jsStableSort cmp l).Pairwise (fun a b => nk a = true → nk b = true)
  | [] => List.Pairwise.nil
  | x :: xs =>
    insertSorted_pairwise_null cmp nk h1 h2 x _
      (jsStableSort_pairwise_null cmp nk h1 h2 xs)

/-- Helper: inserting an element with `p x = true` puts it in front of
every `p`-element already placed, provided the comparator never ranks a
`p`-element strictly before `x`. -/
theorem filter_insertSorted_pos (cmp : Campaign → Campaign → ℤ)
    (p : Campaign → Bool) (x : Campaign) (hx : p x = true)
    (hcmp : ∀ y, p y = true → 0 ≤ cmp y x) :
    ∀ s : List Campaign, (insertSorted cmp x s).filter p = x :: s.filter p
  | [] => by simp [insertSorted, hx]
  | y :: ys => by
    rw [insertSorted]
    by_cases h : cmp y x < 0
    · rw [if_pos h]
      have hpy : p y = false := by
        by_contra hh
        have := hcmp y (by simpa using hh)
        omega
      simp [List.filter_cons, hpy, filter_insertSorted_pos cmp p x hx hcmp ys]
    · rw [if_neg h]
      simp [List.filter_cons, hx]

/-- Helper: inserting an element with `p x = false` leaves the
`p`-sublist unchanged. -/
theorem filter_insertSorted_neg (cmp : Campaign → Campaign → ℤ)
    (p : Campaign → Bool) (x : Campaign) (hx : p x = false) :
    ∀ s : List Campaign, (insertSorted cmp x s).filter p = s.filter p
  | [] => by simp [insertSorted, hx]
  | y :: ys => by
    rw [insertSorted]
    by_cases h : cmp y x < 0
    · rw [if_pos h]
      simp [List.filter_cons, filter_insertSorted_neg cmp p x hx ys]
    · rw [if_neg h]
      simp [List.filter_cons, hx]

/-- Helper: stability of the sort in filter form — the `p`-sublist of
the output equals the `p`-sublist of the input whenever the comparator
never ranks one `p`-element strictly before another. -/
theorem jsStableSort_filter (cmp : Campaign → Campaign → ℤ)
    (p : Campaign → Bool)
    (hK : ∀ a b, p a = true → p b = true → 0 ≤ cmp b a) :
    ∀ l : List Campaign, (jsStableSort cmp l).filter p = l.filter p
  | [] => rfl
  | x :: xs => by
    rw [jsStableSort]
    by_cases hx : p x = true
    · rw [filter_insertSorted_pos cmp p x hx (fun y hy => hK x y hx hy) _,
        jsStableSort_filter cmp p hK xs]
      simp [List.filter_cons, hx]
    · have hx2 : p x = false := by simpa using hx
      rw [filter_insertSorted_neg cmp p x hx2 _, jsStableSort_filter cmp p hK xs]
      simp [List.filter_cons, hx2]

/-- Helper: the two shapes an insertion step can take. -/
theorem insertSorted_eq_cases (cmp : Campaign → Campaign → ℤ) (x : Campaign)
    (s : List Campaign) :
    insertSorted cmp x s = x :: s ∨
      ∃ y ys, s = y :: ys ∧ cmp y x < 0 ∧
        insertSorted cmp x s = y :: insertSorted cmp x ys := by
  cases s with
  | nil => exact Or.inl rfl
  | cons y ys =>
    by_cases h : cmp y x < 0
    · exact Or.inr ⟨y, ys, rfl, h, by rw [insertSorted, if_pos h]⟩
    · exact Or.inl (by rw [insertSorted, if_neg h])

/-- Helper: one insertion step preserves the chain invariant
`0 ≤ cmp next prev` on consecutive elements, for any comparator that is
never strict in both directions. -/
theorem insertSorted_chain (cmp : Campaign → Campaign → ℤ)
    (hAnti : ∀ a b, cmp a b < 0 → 0 ≤ cmp b a) (x : Campaign) :
    ∀ s : List Campaign, s.Chain' (fun a b => 0 ≤ cmp b a) →
      (insertSorted cmp x s).Chain' (fun a b => 0 ≤ cmp b a)
  | [], _ => by simp [insertSorted]
  | y :: ys, hs => by
    rw [insertSorted]
    by_cases h : cmp y x < 0
    · rw [if_pos h]
      have hys := (List.chain'_cons'.mp hs).2
      refine List.chain'_cons'.mpr ⟨?_, insertSorted_chain cmp hAnti x ys hys⟩
      intro z hz
      rcases insertSorted_eq_cases cmp x ys with heq | ⟨u, us, hyu, hu, heq⟩
      · rw [heq] at hz
        simp only [List.head?_cons, Option.mem_some_iff] at hz
        rw [← hz]
        exact hAnti y x h
      · rw [heq] at hz
        simp only [List.head?_cons, Option.mem_some_iff] at hz
        rw [← hz]
        have := (List.chain'_cons'.mp hs).1
        exact this u (by rw [hyu]; simp)
    · rw [if_neg h]
      refine List.chain'_cons'.mpr ⟨?_, hs⟩
      intro z hz
      simp only [List.head?_cons, Option.mem_some_iff] at hz
      rw [← hz]
      omega

/-- Helper: the sort output satisfies the chain invariant. -/
theorem jsStableSort_chain (cmp : Campaign → Campaign → ℤ)
    (hAnti : ∀ a b, cmp a b < 0 → 0 ≤ cmp b a) :
    ∀ l : List Campaign, (jsStableSort cmp l).Chain' (fun a b => 0 ≤ cmp b a)
  | [] => List.chain'_nil
  | x :: xs =>
    insertSorted_chain cmp hAnti x _ (jsStableSort_chain cmp hAnti xs)

/-- Helper: a list satisfying the chain invariant is a fixed point of
the sort. -/
theorem jsStableSort_of_chain (cmp : Campaign → Campaign → ℤ) :
    ∀ s : List Campaign, s.Chain' (fun a b => 0 ≤ cmp b a) →
      jsStableSort cmp s = s
  | [], _ => rfl
  | x :: xs, hs => by
    rw [jsStableSort, jsStableSort_of_chain cmp xs (List.chain'_cons'.mp hs).2]
    cases xs with
    | nil => rfl
    | cons y ys =>
      have hy : 0 ≤ cmp y x := (List.chain'_cons'.mp hs).1 y (by simp)
      rw [insertSorted, if_neg (by omega)]

/-- Helper: the sort is idempotent for any comparator that is never
strict in both directions. -/
theorem jsStableSort_idem (cmp : Campaign → Campaign → ℤ)
    (hAnti : ∀ a b, cmp a b < 0 → 0 ≤ cmp b a) (l : List Campaign) :
    jsStableSort cmp (jsStableSort cmp l) = jsStableSort cmp l :=
  jsStableSort_of_chain cmp _ (jsStableSort_chain cmp hAnti l)

/-- C7: the sort engine is stable — for every key value, the records
carrying that exact sort-key value appear in the output in their
original relative order — and sorting an already-sorted collection
again with the same spec returns it unchanged (idempotence). -/
theorem sortStableIdempotent (f : String) (ord : SortOrder) (l : List Campaign) :
    (∀ v : JsVal,
      (sortCampaigns f ord l).filter (fun c => decide (c.get f = v)) =
        l.filter (fun c => decide (c.get f = v))) ∧
    sortCampaigns f ord (sortCampaigns f ord l) = sortCampaigns f ord l := by
  constructor
  · intro v
    refine jsStableSort_filter (jsCompare f ord) _ ?_ l
    intro a b ha hb
    exact jsCompare_key_eq f ord b a
      (by rw [of_decide_eq_true hb, of_decide_eq_true ha])
  · exact jsStableSort_idem (jsCompare f ord) (jsCompare_anti f ord) l

/-- C3 (amended): for every non-date sort field, records whose key is
null/undefined are ordered after all records with a defined key, in
both directions (they form a suffix of the output).  For `created_at`
this fails: an undefined date is converted to `NaN` before the
null/undefined branch, so it compares equal to every record and keeps
its original relative position — the claimed scenario sort by
`created_at` DESC over dates [2024-01-01, undefined, 2024-03-01]
leaves the order unchanged instead of moving the undefined record to
the end. -/
theorem nullSortPolicy :
    (∀ (f : String) (ord : SortOrder) (l : List Campaign),
      f ≠ "created_at" →
      (sortCampaigns f ord l).Pairwise
        (fun a b => isNullish (a.get f) = true → isNullish (b.get f) = true)) ∧
    sortCampaigns "created_at" SortOrder.desc
        [janCampaign, undefCampaign, marCampaign] =
      [janCampaign, undefCampaign, marCampaign] := by
  constructor
  · intro f ord l hf
    exact jsStableSort_pairwise_null (jsCompare f ord)
      (fun c => isNullish (c.get f))
      (fun y x hy => jsCompare_null_first f ord hf y x hy)
      (fun y x hy hx => jsCompare_null_second f ord hf y x hy hx) l
  · decide

/-- Witness for C3 at a concrete non-date field and collection. -/
theorem nullSortPolicy_witness :
    ("lead_count" ≠ "created_at") ∧
    (sortCampaigns "lead_count" SortOrder.asc [campA, defaultCampaign]).Pairwise
      (fun a b => isNullish (a.get "lead_count") = true →
        isNullish (b.get "lead_count") = true) :=
  ⟨by decide,
    nullSortPolicy.1 "lead_count" SortOrder.asc [campA, defaultCampaign]
      (by decide)⟩

/-- C3 counterexample: sorting by `created_at` DESC, a record with an
undefined date placed before a defined one stays in front — it is NOT
ordered after the record with the defined value, because
`new Date(undefined).getTime()` is `NaN`, which is not caught by the
null/undefined branch and compares equal to everything. -/
theorem undefinedDateKeepsPosition :
    sortCampaigns "created_at" SortOrder.desc [undefCampaign, marCampaign] =
      [undefCampaign, marCampaign] ∧
    sortCampaigns "created_at" SortOrder.desc [undefCampaign, marCampaign] ≠
      [marCampaign, undefCampaign] := by
  constructor <;> decide

end Hypergen
